import Mathlib

/-!
Shallow embedding of the model-provisioning and conversation-session logic of
the AI-Mobile-Assistant application (src/app/index.tsx and the unnamed variant
src/unnamed/part_000).  Both files define the same `HomeScreen` component with
state hooks `downloadProgress`, `messages`, `inputMessage`, `error`,
`isProcessing`, `context` and the functions `loadModel`, `sendMessage`,
`clearChat`; they differ only in the system persona string, the `n_predict`
cap (512 vs 100), and in whether `clearChat` also clears the pending input.

React `useState` semantics are modelled faithfully: one invocation of
`sendMessage`/`loadModel` reads the state snapshot captured when the closure
was created, while every `setX(...)` call updates a separate running state
that becomes the snapshot of the next render.  External calls (filesystem,
download, llama.rn) are recorded in an event trace and their outcomes are
supplied by an environment record; the persistent filesystem is a `World`
threaded through the calls.  JavaScript float division for the progress ratio
is modelled by exact rational division.
-/

inductive Role where
  | system
  | user
  | assistant
deriving DecidableEq

structure Message where
  role : Role
  content : String
deriving DecidableEq

/-- Opaque handle returned by `initLlama` (the llama.rn context object). -/
structure LlamaContext where
  id : Nat
deriving DecidableEq

/-- The `useState` hooks of `HomeScreen` that the session logic touches. -/
structure AppState where
  downloadProgress : ℚ
  messages : List Message
  inputMessage : String
  error : Option String
  isProcessing : Bool
  context : Option LlamaContext
deriving DecidableEq

/-- Persistent filesystem facts that survive across calls in one process. -/
structure World where
  dirExists : Bool
  fileExists : Bool
deriving DecidableEq

/-- The option record passed to `initLlama`. -/
structure InitConfig where
  model : String
  use_mlock : Bool
  n_ctx : Nat
  n_gpu_layers : Nat
  use_progress_callback : Bool
deriving DecidableEq

/-- The request record passed to `context.completion`. -/
structure CompletionRequest where
  messages : List Message
  n_predict : Nat
  stop : List String
deriving DecidableEq

/-- External calls made by `loadModel` and `sendMessage`, in order. -/
inductive Event where
  | getDirInfo (path : String)
  | makeDirectory (path : String)
  | getFileInfo (path : String)
  | downloadAttempt (url : String) (path : String)
  | getFileInfoMd5 (path : String)
  | loadModelInfo (path : String)
  | initEngine (cfg : InitConfig)
  | completionCall (req : CompletionRequest) (handle : LlamaContext)
deriving DecidableEq

/-- Outcomes of the external calls `loadModel` may perform.  An `Except.error`
carries the thrown error's `.message` (the empty string models a missing
message, which is falsy in JavaScript). -/
structure LoadEnv where
  mkdirResult : Except String Unit
  progressEvents : List (Nat × Nat)
  downloadResult : Except String Unit
  modelInfoResult : Except String Unit
  initResult : Except String LlamaContext

/-- Outcomes of the external calls `sendMessage` may perform: provisioning
outcomes plus the `context.completion` outcome (`ok` carries `msgResult.text`). -/
structure SendEnv where
  loadEnv : LoadEnv
  completionResult : Except String String

/-- `MODEL_URL` constant of both variants. -/
def MODEL_URL : String :=
  "https://pub-741c015d579d42f8acfe54bd0788c5ef.r2.dev/gemma-2-2b-it-Q8_0.gguf"

/-- `modelDirectory`; `docDir` stands for the platform-provided
`FileSystem.documentDirectory`. -/
def modelDirectory (docDir : String) : String := docDir ++ "models/"

/-- `localModelPath`. -/
def localModelPath (docDir : String) : String :=
  modelDirectory docDir ++ "gemma-2-2b-it-Q8_0-011.gguf"

/-- The message installed by `setError` on a timeout-classified download failure. -/
def downloadTimeoutMessage : String :=
  "Download timed out. Please check your internet connection and try again."

/-- Fallback of `e.message || "Failed to load model"` in `loadModel`. -/
def loadModelFallbackError : String := "Failed to load model"

/-- Fallback of `e.message || "Failed to send message"` in `sendMessage`. -/
def sendFallbackError : String := "Failed to send message"

/-- The fixed `stop` list passed to `context.completion` (identical in both
variants, including the duplicated final entry). -/
def stopSequences : List String :=
  ["</s>", "<|end|>", "<|eot_id|>", "<|end_of_text|>", "<|im_end|>", "<|EOT|>",
   "<|END_OF_TURN_TOKEN|>", "<end_of_turn>", "<end_of_turn><eos>",
   "<|endoftext|>", "<|end_of_text|>"]

/-- `pat` occurs as a contiguous run inside `l`. -/
def charsContain (pat : List Char) : List Char → Bool
  | [] => pat.isPrefixOf []
  | c :: rest => pat.isPrefixOf (c :: rest) || charsContain pat rest

/-- JavaScript `s.includes(pat)`. -/
def jsIncludes (s pat : String) : Bool := charsContain pat.data s.data

/-- JavaScript `s.trim()`: strip leading and trailing whitespace. -/
def jsTrim (s : String) : String :=
  ⟨((s.data.dropWhile Char.isWhitespace).reverse.dropWhile Char.isWhitespace).reverse⟩

/-- JavaScript `s || fallback` on strings (empty string is falsy). -/
def jsOr (s fallback : String) : String := if s = "" then fallback else s

/-- The option record the source passes to `initLlama`. -/
def initConfig (docDir : String) : InitConfig :=
  { model := localModelPath docDir
    use_mlock := true
    n_ctx := 2048
    n_gpu_layers := 0
    use_progress_callback := true }

/-- The download progress callback: each transport progress report recomputes
`totalBytesWritten / totalBytesExpectedToWrite` and publishes it via
`setDownloadProgress`. -/
def applyProgress (st : AppState) (events : List (Nat × Nat)) : AppState :=
  events.foldl (fun s p => { s with downloadProgress := (p.1 : ℚ) / (p.2 : ℚ) }) st

/-- Tail of `loadModel` once the model file is present: `loadLlamaModelInfo`
followed by `initLlama`; a throw is handled by the enclosing catch
(`setError(e.message || "Failed to load model")`) and the `finally` clause
sets `isProcessing` to false on every path. -/
def loadModelInit (docDir : String) (st : AppState) (w : World) (env : LoadEnv)
    (tr : List Event) : AppState × World × List Event :=
  let tr := tr ++ [Event.loadModelInfo (localModelPath docDir)]
  match env.modelInfoResult with
  | .error msg =>
      ({ st with error := some (jsOr msg loadModelFallbackError), isProcessing := false }, w, tr)
  | .ok _ =>
      let tr := tr ++ [Event.initEngine (initConfig docDir)]
      match env.initResult with
      | .error msg =>
          ({ st with error := some (jsOr msg loadModelFallbackError), isProcessing := false }, w, tr)
      | .ok ctx =>
          ({ st with context := some ctx, isProcessing := false }, w, tr)

/-- Middle of `loadModel`: check the local file; if absent, run the resumable
download.  A download failure whose message includes "timed out" sets the
timeout error and returns; any other failure is re-thrown into the outer
catch.  On download success the file now exists on disk and the extra
`getInfoAsync(localModelPath, \x7bmd5: true\x7d)` call is made before engine
initialization. -/
def loadModelDownload (docDir : String) (st : AppState) (w : World) (env : LoadEnv)
    (tr : List Event) : AppState × World × List Event :=
  let tr := tr ++ [Event.getFileInfo (localModelPath docDir)]
  if w.fileExists then
    loadModelInit docDir st w env tr
  else
    let tr := tr ++ [Event.downloadAttempt MODEL_URL (localModelPath docDir)]
    let st := applyProgress st env.progressEvents
    match env.downloadResult with
    | .error msg =>
        if jsIncludes msg "timed out" then
          ({ st with error := some downloadTimeoutMessage, isProcessing := false }, w, tr)
        else
          ({ st with error := some (jsOr msg loadModelFallbackError), isProcessing := false }, w, tr)
    | .ok _ =>
        loadModelInit docDir st { w with fileExists := true } env
          (tr ++ [Event.getFileInfoMd5 (localModelPath docDir)])

/-- `loadModel` of both variants: set `isProcessing`, ensure the model
directory exists (directory-creation failure lands in the outer catch),
then proceed to the file check / download / engine initialization. -/
def loadModel (docDir : String) (st : AppState) (w : World) (env : LoadEnv) :
    AppState × World × List Event :=
  let st := { st with isProcessing := true }
  let tr := [Event.getDirInfo (modelDirectory docDir)]
  if w.dirExists then
    loadModelDownload docDir st w env tr
  else
    let tr := tr ++ [Event.makeDirectory (modelDirectory docDir)]
    match env.mkdirResult with
    | .error msg =>
        ({ st with error := some (jsOr msg loadModelFallbackError), isProcessing := false }, w, tr)
    | .ok _ =>
        loadModelDownload docDir st { w with dirExists := true } env tr

/-- The two deployment variants differ only in the persona preamble and the
`n_predict` cap. -/
structure SessionConfig where
  systemContent : String
  nPredict : Nat
deriving DecidableEq

/-- Variant in src/app/index.tsx. -/
def appConfig : SessionConfig :=
  { systemContent :=
      "This is a conversation between user and assistant, an AI Therapist chatbot."
    nPredict := 512 }

/-- Variant in src/unnamed/part_000. -/
def part000Config : SessionConfig :=
  { systemContent :=
      "This is a conversation between user and assistant, a friendly chatbot."
    nPredict := 100 }

/-- `sendMessage` of both variants.  All reads (`inputMessage`, `isProcessing`,
`context`, `messages`) come from the closure-captured snapshot `s`; all
`setX(...)` calls update the running state.  In particular, after
`await loadModel()` the `if (!context) return` re-reads the snapshot's
`context`, which is still `none` on this path, so the branch always returns
without reaching the completion call. -/
def sendMessage (cfg : SessionConfig) (docDir : String) (s : AppState) (w : World)
    (env : SendEnv) : AppState × World × List Event :=
  if jsTrim s.inputMessage = "" ∨ s.isProcessing then (s, w, [])
  else
    match s.context with
    | none => loadModel docDir s w env.loadEnv
    | some ctx =>
        let messageToSend := s.inputMessage
        let newMessages := s.messages ++ [⟨Role.user, messageToSend⟩]
        let st := { s with messages := newMessages, inputMessage := "" }
        let st := { st with isProcessing := true }
        let req : CompletionRequest :=
          { messages := ⟨Role.system, cfg.systemContent⟩ :: newMessages
            n_predict := cfg.nPredict
            stop := stopSequences }
        let tr := [Event.completionCall req ctx]
        match env.completionResult with
        | .ok text =>
            ({ st with messages := newMessages ++ [⟨Role.assistant, text⟩],
                       isProcessing := false }, w, tr)
        | .error msg =>
            ({ st with error := some (jsOr msg sendFallbackError),
                       isProcessing := false }, w, tr)

/-- `clearChat` of src/app/index.tsx: clears transcript and pending input. -/
def clearChat (s : AppState) : AppState :=
  { s with messages := [], inputMessage := "" }

/-- `clearChat` of src/unnamed/part_000: clears the transcript only. -/
def clearChatP0 (s : AppState) : AppState :=
  { s with messages := [] }

def isDownloadEvent : Event → Bool
  | .downloadAttempt _ _ => true
  | _ => false

def isInitEvent : Event → Bool
  | .initEngine _ => true
  | _ => false

def isModelInfoEvent : Event → Bool
  | .loadModelInfo _ => true
  | _ => false

def isCompletionEvent : Event → Bool
  | .completionCall _ _ => true
  | _ => false

/-- Number of download attempts in a trace. -/
def countDownloads (tr : List Event) : Nat := tr.countP isDownloadEvent

/-- Number of engine initializations in a trace. -/
def countInits (tr : List Event) : Nat := tr.countP isInitEvent

/-- Number of `loadLlamaModelInfo` calls in a trace. -/
def countModelInfoReads (tr : List Event) : Nat := tr.countP isModelInfoEvent

/-- Number of completion requests in a trace. -/
def countCompletions (tr : List Event) : Nat := tr.countP isCompletionEvent

/-- Fresh-start state: empty transcript, pending input, no cached handle. -/
def exFreshState : AppState :=
  { downloadProgress := 0, messages := [], inputMessage := "hello",
    error := none, isProcessing := false, context := none }

/-- State with a cached handle and pending input. -/
def exReadyState : AppState :=
  { downloadProgress := 0, messages := [], inputMessage := "hello",
    error := none, isProcessing := false, context := some ⟨1⟩ }

/-- State already busy with a request. -/
def exBusyState : AppState :=
  { downloadProgress := 0, messages := [], inputMessage := "hello",
    error := none, isProcessing := true, context := none }

/-- State with a recorded error and a cached handle. -/
def exErrState : AppState :=
  { downloadProgress := 0, messages := [], inputMessage := "hello",
    error := some "previous failure", isProcessing := false, context := some ⟨1⟩ }

/-- State with one transcript entry and a typed draft, handle cached. -/
def exDraftState : AppState :=
  { downloadProgress := 0, messages := [⟨Role.user, "hello"⟩],
    inputMessage := "draft", error := none, isProcessing := false,
    context := some ⟨1⟩ }

/-- Directory exists, model file not yet downloaded. -/
def exWorldFresh : World := { dirExists := true, fileExists := false }

/-- Directory and model file both present. -/
def exWorldReady : World := { dirExists := true, fileExists := true }

/-- Provisioning environment in which every external call succeeds. -/
def exLoadEnvOk : LoadEnv :=
  { mkdirResult := .ok (), progressEvents := [], downloadResult := .ok (),
    modelInfoResult := .ok (), initResult := .ok ⟨1⟩ }

/-- Provisioning environment whose download fails with a timeout message. -/
def exLoadEnvTimeout : LoadEnv :=
  { mkdirResult := .ok (), progressEvents := [(250000, 1000000)],
    downloadResult := .error "Request timed out", modelInfoResult := .ok (),
    initResult := .ok ⟨1⟩ }

/-- Send environment in which provisioning and completion both succeed. -/
def exSendEnvOk : SendEnv :=
  { loadEnv := exLoadEnvOk, completionResult := .ok "I hear you." }

/-- Send environment whose completion call fails. -/
def exSendEnvErr : SendEnv :=
  { loadEnv := exLoadEnvOk, completionResult := .error "inference crashed" }

/-- `jsOr` never produces the empty string when the fallback is non-empty. -/
theorem jsOr_ne_empty (s f : String) (hf : f ≠ "") : jsOr s f ≠ "" := by
  unfold jsOr
  split <;> simp_all

/-- `applyProgress` only touches `downloadProgress`. -/
theorem applyProgress_inputMessage (evs : List (Nat × Nat)) (st : AppState) :
    (applyProgress st evs).inputMessage = st.inputMessage := by
  induction evs generalizing st with
  | nil => rfl
  | cons p evs ih => exact ih { st with downloadProgress := (p.1 : ℚ) / (p.2 : ℚ) }

theorem applyProgress_messages (evs : List (Nat × Nat)) (st : AppState) :
    (applyProgress st evs).messages = st.messages := by
  induction evs generalizing st with
  | nil => rfl
  | cons p evs ih => exact ih { st with downloadProgress := (p.1 : ℚ) / (p.2 : ℚ) }

theorem applyProgress_error (evs : List (Nat × Nat)) (st : AppState) :
    (applyProgress st evs).error = st.error := by
  induction evs generalizing st with
  | nil => rfl
  | cons p evs ih => exact ih { st with downloadProgress := (p.1 : ℚ) / (p.2 : ℚ) }

theorem applyProgress_isProcessing (evs : List (Nat × Nat)) (st : AppState) :
    (applyProgress st evs).isProcessing = st.isProcessing := by
  induction evs generalizing st with
  | nil => rfl
  | cons p evs ih => exact ih { st with downloadProgress := (p.1 : ℚ) / (p.2 : ℚ) }

theorem applyProgress_context (evs : List (Nat × Nat)) (st : AppState) :
    (applyProgress st evs).context = st.context := by
  induction evs generalizing st with
  | nil => rfl
  | cons p evs ih => exact ih { st with downloadProgress := (p.1 : ℚ) / (p.2 : ℚ) }

/-- C1: at a non-busy state with non-blank input, no cached handle, and an
environment in which provisioning succeeds end-to-end, `sendMessage` awaits
the provisioner and the handle is cached, yet it issues zero completion
requests and leaves the transcript unchanged: the post-provisioning null
check reads the stale snapshot `context`, contradicting the intent documented
by the source comment that the early return is only for a failed load. -/
theorem sendMessage_first_send_issues_no_completion :
    countCompletions (sendMessage appConfig "d/" exFreshState exWorldFresh exSendEnvOk).2.2 = 0
    ∧ countDownloads (sendMessage appConfig "d/" exFreshState exWorldFresh exSendEnvOk).2.2 = 1
    ∧ countInits (sendMessage appConfig "d/" exFreshState exWorldFresh exSendEnvOk).2.2 = 1
    ∧ (sendMessage appConfig "d/" exFreshState exWorldFresh exSendEnvOk).1.context = some ⟨1⟩
    ∧ (sendMessage appConfig "d/" exFreshState exWorldFresh exSendEnvOk).1.messages = [] := by
  decide

/-- C2: when the session is busy or the pending input is empty or
whitespace-only, `sendMessage` is a complete no-op: the state (hence the
transcript, the busy flag and the error state), the filesystem and the trace
are unchanged. -/
theorem sendMessage_busy_or_blank_noop (cfg : SessionConfig) (docDir : String)
    (s : AppState) (w : World) (env : SendEnv)
    (h : s.isProcessing = true ∨ jsTrim s.inputMessage = "") :
    sendMessage cfg docDir s w env = (s, w, []) := by
  unfold sendMessage
  rcases h with h | h <;> simp [h]

/-- C2 witness: a busy state with whitespace-only input is left untouched. -/
theorem sendMessage_busy_or_blank_noop_witness :
    sendMessage appConfig "d/" { exBusyState with inputMessage := "   " }
        exWorldFresh exSendEnvOk
      = ({ exBusyState with inputMessage := "   " }, exWorldFresh, []) :=
  sendMessage_busy_or_blank_noop appConfig "d/"
    { exBusyState with inputMessage := "   " } exWorldFresh exSendEnvOk
    (Or.inl rfl)

/-- C3: a successful send with non-blank input and an available handle grows
the transcript by exactly the user turn followed by the assistant turn
carrying the completion's text, preserving all earlier entries. -/
theorem sendMessage_success_appends_user_then_assistant (cfg : SessionConfig)
    (docDir : String) (s : AppState) (w : World) (env : SendEnv)
    (ctx : LlamaContext) (text : String)
    (hin : ¬ jsTrim s.inputMessage = "") (hbusy : s.isProcessing = false)
    (hctx : s.context = some ctx) (hok : env.completionResult = .ok text) :
    (sendMessage cfg docDir s w env).1.messages
      = s.messages ++ [⟨Role.user, s.inputMessage⟩, ⟨Role.assistant, text⟩] := by
  unfold sendMessage
  simp [hin, hbusy, hctx, hok]

/-- C3 witness at the scenario of the spec. -/
theorem sendMessage_success_appends_user_then_assistant_witness :
    (sendMessage appConfig "d/" exReadyState exWorldReady exSendEnvOk).1.messages
      = exReadyState.messages
        ++ [⟨Role.user, "hello"⟩, ⟨Role.assistant, "I hear you."⟩] :=
  sendMessage_success_appends_user_then_assistant appConfig "d/" exReadyState
    exWorldReady exSendEnvOk ⟨1⟩ "I hear you." (by decide) rfl rfl rfl

/-- C4: when the completion call fails after the user turn was appended, the
transcript gains exactly the user turn and no assistant turn, `lastError`
becomes a non-empty message, and the busy flag is false afterwards. -/
theorem sendMessage_completion_failure_state (cfg : SessionConfig)
    (docDir : String) (s : AppState) (w : World) (env : SendEnv)
    (ctx : LlamaContext) (msg : String)
    (hin : ¬ jsTrim s.inputMessage = "") (hbusy : s.isProcessing = false)
    (hctx : s.context = some ctx) (herr : env.completionResult = .error msg) :
    (sendMessage cfg docDir s w env).1.messages
      = s.messages ++ [⟨Role.user, s.inputMessage⟩]
    ∧ (sendMessage cfg docDir s w env).1.error = some (jsOr msg sendFallbackError)
    ∧ jsOr msg sendFallbackError ≠ ""
    ∧ (sendMessage cfg docDir s w env).1.isProcessing = false := by
  refine ⟨?_, ?_, jsOr_ne_empty msg sendFallbackError (by decide), ?_⟩ <;>
    · unfold sendMessage
      simp [hin, hbusy, hctx, herr]

/-- C4 witness: a failing completion leaves the user turn, a non-empty error
and a released busy flag. -/
theorem sendMessage_completion_failure_state_witness :
    (sendMessage appConfig "d/" exReadyState exWorldReady exSendEnvErr).1.messages
      = exReadyState.messages ++ [⟨Role.user, "hello"⟩]
    ∧ (sendMessage appConfig "d/" exReadyState exWorldReady exSendEnvErr).1.error
      = some (jsOr "inference crashed" sendFallbackError)
    ∧ jsOr "inference crashed" sendFallbackError ≠ ""
    ∧ (sendMessage appConfig "d/" exReadyState exWorldReady exSendEnvErr).1.isProcessing
      = false :=
  sendMessage_completion_failure_state appConfig "d/" exReadyState exWorldReady
    exSendEnvErr ⟨1⟩ "inference crashed" (by decide) rfl rfl rfl

/-- C5: every completion request issued by `sendMessage` carries the fixed
system persona turn of the variant followed by the full transcript with the
just-appended user turn, the variant generation cap (512 for the app variant,
100 for the part_000 variant) and the fixed stop-sequence list; it is the
only external call of that send and it targets the cached handle. -/
theorem sendMessage_completion_request_shape (cfg : SessionConfig)
    (docDir : String) (s : AppState) (w : World) (env : SendEnv)
    (ctx : LlamaContext)
    (hcfg : cfg = appConfig ∨ cfg = part000Config)
    (hin : ¬ jsTrim s.inputMessage = "") (hbusy : s.isProcessing = false)
    (hctx : s.context = some ctx) :
    (sendMessage cfg docDir s w env).2.2
      = [Event.completionCall
          { messages := ⟨Role.system, cfg.systemContent⟩
              :: (s.messages ++ [⟨Role.user, s.inputMessage⟩])
            n_predict := cfg.nPredict
            stop := stopSequences } ctx]
    ∧ (cfg.nPredict = 512 ∨ cfg.nPredict = 100) := by
  constructor
  · unfold sendMessage
    rcases henv : env.completionResult with msg | text <;> simp [hin, hbusy, hctx, henv]
  · rcases hcfg with h | h <;> subst h
    · exact Or.inl rfl
    · exact Or.inr rfl

/-- C5 witness at the app variant on a concrete send. -/
theorem sendMessage_completion_request_shape_witness :
    (sendMessage appConfig "d/" exReadyState exWorldReady exSendEnvOk).2.2
      = [Event.completionCall
          { messages := ⟨Role.system, appConfig.systemContent⟩
              :: (exReadyState.messages ++ [⟨Role.user, "hello"⟩])
            n_predict := appConfig.nPredict
            stop := stopSequences } ⟨1⟩]
    ∧ (appConfig.nPredict = 512 ∨ appConfig.nPredict = 100) :=
  sendMessage_completion_request_shape appConfig "d/" exReadyState exWorldReady
    exSendEnvOk ⟨1⟩ (Or.inl rfl) (by decide) rfl rfl

/-- C6: a provisioning run that finds the model file present reads the model
metadata first and, when that read succeeds, immediately initializes the
engine with exactly the fixed parameters: the local model path, memory
locking enabled, context window 2048, zero accelerator-offload layers and
progress callbacks enabled; nothing follows the initialization in the call. -/
theorem loadModel_present_reads_info_then_inits (docDir : String)
    (st : AppState) (w : World) (env : LoadEnv)
    (hfile : w.fileExists = true)
    (hdir : w.dirExists = true ∨ env.mkdirResult = .ok ())
    (hinfo : env.modelInfoResult = .ok ()) :
    ∃ pre, (loadModel docDir st w env).2.2
      = pre ++ [Event.loadModelInfo (localModelPath docDir),
                Event.initEngine
                  { model := localModelPath docDir, use_mlock := true,
                    n_ctx := 2048, n_gpu_layers := 0,
                    use_progress_callback := true }] := by
  rcases hi : env.initResult with msg | ctx <;>
    rcases hd : w.dirExists with _ | _
  · rcases hdir with hdir | hmk
    · rw [hd] at hdir; cases hdir
    · exact ⟨[Event.getDirInfo (modelDirectory docDir),
              Event.makeDirectory (modelDirectory docDir),
              Event.getFileInfo (localModelPath docDir)],
            by simp [loadModel, loadModelDownload, loadModelInit, initConfig,
                     hd, hfile, hinfo, hi, hmk]⟩
  · exact ⟨[Event.getDirInfo (modelDirectory docDir),
            Event.getFileInfo (localModelPath docDir)],
          by simp [loadModel, loadModelDownload, loadModelInit, initConfig,
                   hd, hfile, hinfo, hi]⟩
  · rcases hdir with hdir | hmk
    · rw [hd] at hdir; cases hdir
    · exact ⟨[Event.getDirInfo (modelDirectory docDir),
              Event.makeDirectory (modelDirectory docDir),
              Event.getFileInfo (localModelPath docDir)],
            by simp [loadModel, loadModelDownload, loadModelInit, initConfig,
                     hd, hfile, hinfo, hi, hmk]⟩
  · exact ⟨[Event.getDirInfo (modelDirectory docDir),
            Event.getFileInfo (localModelPath docDir)],
          by simp [loadModel, loadModelDownload, loadModelInit, initConfig,
                   hd, hfile, hinfo, hi]⟩

/-- C6 witness: present file, metadata read succeeds, engine initialized with
the fixed parameters. -/
theorem loadModel_present_reads_info_then_inits_witness :
    ∃ pre, (loadModel "d/" exFreshState exWorldReady exLoadEnvOk).2.2
      = pre ++ [Event.loadModelInfo (localModelPath "d/"),
                Event.initEngine
                  { model := localModelPath "d/", use_mlock := true,
                    n_ctx := 2048, n_gpu_layers := 0,
                    use_progress_callback := true }] :=
  loadModel_present_reads_info_then_inits "d/" exFreshState exWorldReady
    exLoadEnvOk rfl (Or.inl rfl) rfl

/-- C7: on a failed download attempt there is exactly one transfer attempt, no
metadata read and no engine initialization in the call; a timeout-classified
failure records the fixed timeout message, and any other failure records a
distinct non-empty message. -/
theorem loadModel_download_failure_classified (docDir : String)
    (st : AppState) (w : World) (env : LoadEnv) (msg : String)
    (hdir : w.dirExists = true ∨ env.mkdirResult = .ok ())
    (hfile : w.fileExists = false)
    (hdl : env.downloadResult = .error msg) :
    countDownloads (loadModel docDir st w env).2.2 = 1
    ∧ countInits (loadModel docDir st w env).2.2 = 0
    ∧ countModelInfoReads (loadModel docDir st w env).2.2 = 0
    ∧ (jsIncludes msg "timed out" = true →
        (loadModel docDir st w env).1.error = some downloadTimeoutMessage)
    ∧ (jsIncludes msg "timed out" = false →
        ∃ e, (loadModel docDir st w env).1.error = some e
          ∧ e ≠ downloadTimeoutMessage ∧ e ≠ "") := by
  have hto : jsIncludes downloadTimeoutMessage "timed out" = true := by decide
  have hdis : ∀ m : String, jsIncludes m "timed out" = false →
      jsOr m loadModelFallbackError ≠ downloadTimeoutMessage := by
    intro m hm
    unfold jsOr
    split
    · decide
    · intro hcontra
      rw [hcontra, hto] at hm
      cases hm
  have hmain : (loadModel docDir st w env).2.2
        = (if w.dirExists then
            [Event.getDirInfo (modelDirectory docDir)]
          else
            [Event.getDirInfo (modelDirectory docDir),
             Event.makeDirectory (modelDirectory docDir)])
          ++ [Event.getFileInfo (localModelPath docDir),
              Event.downloadAttempt MODEL_URL (localModelPath docDir)]
      ∧ (loadModel docDir st w env).1.error
        = some (if jsIncludes msg "timed out" then downloadTimeoutMessage
                else jsOr msg loadModelFallbackError) := by
    rcases hd : w.dirExists with _ | _
    · rcases hdir with hdir | hmk
      · rw [hd] at hdir; cases hdir
      · rcases ht : jsIncludes msg "timed out" with _ | _ <;>
          simp [loadModel, loadModelDownload, hd, hfile, hdl, hmk, ht,
                applyProgress_error]
    · rcases ht : jsIncludes msg "timed out" with _ | _ <;>
        simp [loadModel, loadModelDownload, hd, hfile, hdl, ht,
              applyProgress_error]
  refine ⟨?_, ?_, ?_, ?_, ?_⟩
  · rw [hmain.1]
    rcases hd : w.dirExists with _ | _ <;>
      simp [countDownloads, isDownloadEvent, List.countP_append, List.countP_cons]
  · rw [hmain.1]
    rcases hd : w.dirExists with _ | _ <;>
      simp [countInits, isInitEvent, List.countP_append, List.countP_cons]
  · rw [hmain.1]
    rcases hd : w.dirExists with _ | _ <;>
      simp [countModelInfoReads, isModelInfoEvent, List.countP_append, List.countP_cons]
  · intro ht
    rw [hmain.2, ht]
    simp
  · intro ht
    refine ⟨jsOr msg loadModelFallbackError, ?_, hdis msg ht,
            jsOr_ne_empty msg loadModelFallbackError (by decide)⟩
    rw [hmain.2, ht]
    simp

/-- C7 witness: a timeout-classified download failure on a fresh world. -/
theorem loadModel_download_failure_classified_witness :
    countDownloads (loadModel "d/" exFreshState exWorldFresh exLoadEnvTimeout).2.2 = 1
    ∧ countInits (loadModel "d/" exFreshState exWorldFresh exLoadEnvTimeout).2.2 = 0
    ∧ countModelInfoReads (loadModel "d/" exFreshState exWorldFresh exLoadEnvTimeout).2.2 = 0
    ∧ (jsIncludes "Request timed out" "timed out" = true →
        (loadModel "d/" exFreshState exWorldFresh exLoadEnvTimeout).1.error
          = some downloadTimeoutMessage)
    ∧ (jsIncludes "Request timed out" "timed out" = false →
        ∃ e, (loadModel "d/" exFreshState exWorldFresh exLoadEnvTimeout).1.error = some e
          ∧ e ≠ downloadTimeoutMessage ∧ e ≠ "") :=
  loadModel_download_failure_classified "d/" exFreshState exWorldFresh
    exLoadEnvTimeout "Request timed out" (Or.inl rfl) rfl rfl

/-- Helper: a send at a state with a cached handle performs no provisioning
call of any kind (no download, no metadata read, no engine initialization),
whether it is a guarded no-op or reaches the completion call. -/
theorem send_cached_no_provision (cfg : SessionConfig) (docDir : String)
    (s : AppState) (w : World) (env : SendEnv) (ctx : LlamaContext)
    (hctx : s.context = some ctx) :
    countDownloads (sendMessage cfg docDir s w env).2.2 = 0
    ∧ countInits (sendMessage cfg docDir s w env).2.2 = 0
    ∧ countModelInfoReads (sendMessage cfg docDir s w env).2.2 = 0 := by
  unfold sendMessage
  by_cases hg : jsTrim s.inputMessage = "" ∨ s.isProcessing
  · simp [hg, countDownloads, countInits, countModelInfoReads]
  · rcases henv : env.completionResult with m | x <;>
      simp [hg, hctx, henv, countDownloads, countInits, countModelInfoReads,
            isDownloadEvent, isInitEvent, isModelInfoEvent]

/-- C8 counterexample: the part_000 variant of `clearChat` leaves the pending
input unchanged: starting from a state whose draft input is "draft", the
input after `clearChat` is still "draft" and in particular is not cleared to
the empty string, even though the transcript is emptied. -/
theorem clearChat_input_not_cleared_cex :
    (clearChatP0 exDraftState).messages = []
    ∧ (clearChatP0 exDraftState).inputMessage = "draft"
    ∧ (clearChatP0 exDraftState).inputMessage ≠ "" := by
  decide

/-- C8 (amended): both variants reset the transcript to the empty list and
leave the cached `InferenceHandle` unchanged, so a subsequent send performs
no provisioning; the app variant additionally clears the pending input to
the empty string, while the part_000 variant leaves the pending input
unchanged. -/
theorem clearChat_behavior_amended (cfg : SessionConfig) (docDir : String)
    (s : AppState) (w : World) (env : SendEnv) (ctx : LlamaContext) (t : String)
    (hctx : s.context = some ctx) :
    (clearChat s).messages = [] ∧ (clearChat s).inputMessage = ""
    ∧ (clearChat s).context = some ctx
    ∧ (clearChatP0 s).messages = [] ∧ (clearChatP0 s).inputMessage = s.inputMessage
    ∧ (clearChatP0 s).context = some ctx
    ∧ countDownloads (sendMessage cfg docDir
        { clearChat s with inputMessage := t, isProcessing := false } w env).2.2 = 0
    ∧ countInits (sendMessage cfg docDir
        { clearChat s with inputMessage := t, isProcessing := false } w env).2.2 = 0
    ∧ countModelInfoReads (sendMessage cfg docDir
        { clearChat s with inputMessage := t, isProcessing := false } w env).2.2 = 0 := by
  have hS : ({ clearChat s with inputMessage := t, isProcessing := false }
      : AppState).context = some ctx := hctx
  obtain ⟨hdl, hini, hinf⟩ := send_cached_no_provision cfg docDir
    { clearChat s with inputMessage := t, isProcessing := false } w env ctx hS
  exact ⟨rfl, rfl, hctx, rfl, rfl, hctx, hdl, hini, hinf⟩

/-- C8 (amended) witness at a concrete state with a cached handle. -/
theorem clearChat_behavior_amended_witness :
    (clearChat exDraftState).messages = [] ∧ (clearChat exDraftState).inputMessage = ""
    ∧ (clearChat exDraftState).context = some ⟨1⟩
    ∧ (clearChatP0 exDraftState).messages = []
    ∧ (clearChatP0 exDraftState).inputMessage = exDraftState.inputMessage
    ∧ (clearChatP0 exDraftState).context = some ⟨1⟩
    ∧ countDownloads (sendMessage appConfig "d/"
        { clearChat exDraftState with inputMessage := "hello", isProcessing := false }
        exWorldReady exSendEnvOk).2.2 = 0
    ∧ countInits (sendMessage appConfig "d/"
        { clearChat exDraftState with inputMessage := "hello", isProcessing := false }
        exWorldReady exSendEnvOk).2.2 = 0
    ∧ countModelInfoReads (sendMessage appConfig "d/"
        { clearChat exDraftState with inputMessage := "hello", isProcessing := false }
        exWorldReady exSendEnvOk).2.2 = 0 :=
  clearChat_behavior_amended appConfig "d/" exDraftState exWorldReady exSendEnvOk
    ⟨1⟩ "hello" rfl

/-- C10: a recorded error persists: neither variant of `clearChat` touches it,
and a send whose completion succeeds (or that is rejected by the guards)
leaves the same non-empty message in place. -/
theorem lastError_persists (cfg : SessionConfig) (docDir : String)
    (s : AppState) (w : World) (env : SendEnv) (m text : String)
    (ctx : LlamaContext)
    (herr : s.error = some m) (hm : m ≠ "")
    (hctx : s.context = some ctx) (hok : env.completionResult = .ok text) :
    (clearChat s).error = some m
    ∧ (clearChatP0 s).error = some m
    ∧ (sendMessage cfg docDir s w env).1.error = some m
    ∧ m ≠ "" := by
  refine ⟨herr, herr, ?_, hm⟩
  unfold sendMessage
  by_cases hg : jsTrim s.inputMessage = "" ∨ s.isProcessing
  · rw [if_pos hg]
    exact herr
  · rw [if_neg hg]
    simp [hctx, hok, herr]

/-- C10 witness: a prior failure message survives a `clearChat` and a
successful send. -/
theorem lastError_persists_witness :
    (clearChat exErrState).error = some "previous failure"
    ∧ (clearChatP0 exErrState).error = some "previous failure"
    ∧ (sendMessage appConfig "d/" exErrState exWorldReady exSendEnvOk).1.error
      = some "previous failure"
    ∧ "previous failure" ≠ "" :=
  lastError_persists appConfig "d/" exErrState exWorldReady exSendEnvOk
    "previous failure" "I hear you." ⟨1⟩ rfl (by decide) rfl rfl

/-- Helper: explicit form of a fully successful provisioning run on a world
without the model file: one download attempt, the file now on disk, and the
returned handle cached with the busy flag released. -/
theorem loadModel_success_shape (docDir : String) (s : AppState) (w : World)
    (env : LoadEnv) (h : LlamaContext)
    (hfile : w.fileExists = false)
    (hdir : w.dirExists = true ∨ env.mkdirResult = .ok ())
    (hdl : env.downloadResult = .ok ()) (hinfo : env.modelInfoResult = .ok ())
    (hinit : env.initResult = .ok h) :
    loadModel docDir s w env
      = ({ applyProgress { s with isProcessing := true } env.progressEvents
            with context := some h, isProcessing := false },
         ({ dirExists := true, fileExists := true } : World),
         (if w.dirExists then [Event.getDirInfo (modelDirectory docDir)]
          else [Event.getDirInfo (modelDirectory docDir),
                Event.makeDirectory (modelDirectory docDir)])
           ++ [Event.getFileInfo (localModelPath docDir),
               Event.downloadAttempt MODEL_URL (localModelPath docDir),
               Event.getFileInfoMd5 (localModelPath docDir),
               Event.loadModelInfo (localModelPath docDir),
               Event.initEngine (initConfig docDir)]) := by
  rcases hd : w.dirExists with _ | _
  · rcases hdir with hdir | hmk
    · rw [hd] at hdir; cases hdir
    · simp [loadModel, loadModelDownload, loadModelInit, hd, hfile, hdl,
            hinfo, hinit, hmk]
  · simp [loadModel, loadModelDownload, loadModelInit, hd, hfile, hdl,
          hinfo, hinit]

/-- C9: starting with no cached handle and no local model file, a first send
whose provisioning succeeds performs exactly one network transfer, leaves the
file on disk and caches the returned handle; the immediately following send
performs no download, no metadata read and no engine initialization, and
issues its single completion request directly against the cached handle. -/
theorem provisioning_idempotent (cfg : SessionConfig) (docDir : String)
    (s : AppState) (w : World) (env₁ env₂ : SendEnv) (h : LlamaContext)
    (hin : ¬ jsTrim s.inputMessage = "") (hbusy : s.isProcessing = false)
    (hctx : s.context = none) (hfile : w.fileExists = false)
    (hdir : w.dirExists = true ∨ env₁.loadEnv.mkdirResult = .ok ())
    (hdl : env₁.loadEnv.downloadResult = .ok ())
    (hinfo : env₁.loadEnv.modelInfoResult = .ok ())
    (hinit : env₁.loadEnv.initResult = .ok h) :
    countDownloads (sendMessage cfg docDir s w env₁).2.2 = 1
    ∧ (sendMessage cfg docDir s w env₁).2.1.fileExists = true
    ∧ (sendMessage cfg docDir s w env₁).1.context = some h
    ∧ countDownloads (sendMessage cfg docDir (sendMessage cfg docDir s w env₁).1
        (sendMessage cfg docDir s w env₁).2.1 env₂).2.2 = 0
    ∧ countInits (sendMessage cfg docDir (sendMessage cfg docDir s w env₁).1
        (sendMessage cfg docDir s w env₁).2.1 env₂).2.2 = 0
    ∧ countModelInfoReads (sendMessage cfg docDir (sendMessage cfg docDir s w env₁).1
        (sendMessage cfg docDir s w env₁).2.1 env₂).2.2 = 0
    ∧ countCompletions (sendMessage cfg docDir (sendMessage cfg docDir s w env₁).1
        (sendMessage cfg docDir s w env₁).2.1 env₂).2.2 = 1 := by
  have hguard : ¬ (jsTrim s.inputMessage = "" ∨ s.isProcessing) := by
    simp [hin, hbusy]
  have h1 : sendMessage cfg docDir s w env₁ = loadModel docDir s w env₁.loadEnv := by
    unfold sendMessage
    rw [if_neg hguard, hctx]
  rw [h1, loadModel_success_shape docDir s w env₁.loadEnv h hfile hdir hdl hinfo hinit]
  have hS : ({ applyProgress { s with isProcessing := true } env₁.loadEnv.progressEvents
      with context := some h, isProcessing := false } : AppState).context = some h := rfl
  obtain ⟨hd0, hi0, hm0⟩ := send_cached_no_provision cfg docDir
    { applyProgress { s with isProcessing := true } env₁.loadEnv.progressEvents
        with context := some h, isProcessing := false }
    { dirExists := true, fileExists := true } env₂ h hS
  have hguard₂ : ¬ (jsTrim ({ applyProgress { s with isProcessing := true }
        env₁.loadEnv.progressEvents
        with context := some h, isProcessing := false } : AppState).inputMessage = ""
      ∨ ({ applyProgress { s with isProcessing := true } env₁.loadEnv.progressEvents
        with context := some h, isProcessing := false } : AppState).isProcessing) := by
    simp only [applyProgress_inputMessage]
    simp [hin]
  have hc1 : countCompletions (sendMessage cfg docDir
      { applyProgress { s with isProcessing := true } env₁.loadEnv.progressEvents
          with context := some h, isProcessing := false }
      { dirExists := true, fileExists := true } env₂).2.2 = 1 := by
    unfold sendMessage
    rw [if_neg hguard₂]
    rcases henv : env₂.completionResult with m | x <;>
      simp [henv, countCompletions, isCompletionEvent]
  refine ⟨?_, rfl, rfl, hd0, hi0, hm0, hc1⟩
  rcases hd : w.dirExists with _ | _ <;>
    simp [hd, countDownloads, isDownloadEvent, List.countP_append, List.countP_cons]

/-- C9 witness: two concrete sends from a fresh state and empty world,
provisioning succeeding on the first. -/
theorem provisioning_idempotent_witness :
    countDownloads (sendMessage appConfig "d/" exFreshState exWorldFresh exSendEnvOk).2.2 = 1
    ∧ (sendMessage appConfig "d/" exFreshState exWorldFresh exSendEnvOk).2.1.fileExists = true
    ∧ (sendMessage appConfig "d/" exFreshState exWorldFresh exSendEnvOk).1.context = some ⟨1⟩
    ∧ countDownloads (sendMessage appConfig "d/"
        (sendMessage appConfig "d/" exFreshState exWorldFresh exSendEnvOk).1
        (sendMessage appConfig "d/" exFreshState exWorldFresh exSendEnvOk).2.1
        exSendEnvOk).2.2 = 0
    ∧ countInits (sendMessage appConfig "d/"
        (sendMessage appConfig "d/" exFreshState exWorldFresh exSendEnvOk).1
        (sendMessage appConfig "d/" exFreshState exWorldFresh exSendEnvOk).2.1
        exSendEnvOk).2.2 = 0
    ∧ countModelInfoReads (sendMessage appConfig "d/"
        (sendMessage appConfig "d/" exFreshState exWorldFresh exSendEnvOk).1
        (sendMessage appConfig "d/" exFreshState exWorldFresh exSendEnvOk).2.1
        exSendEnvOk).2.2 = 0
    ∧ countCompletions (sendMessage appConfig "d/"
        (sendMessage appConfig "d/" exFreshState exWorldFresh exSendEnvOk).1
        (sendMessage appConfig "d/" exFreshState exWorldFresh exSendEnvOk).2.1
        exSendEnvOk).2.2 = 1 :=
  provisioning_idempotent appConfig "d/" exFreshState exWorldFresh exSendEnvOk
    exSendEnvOk ⟨1⟩ (by decide) rfl rfl rfl (Or.inl rfl) rfl rfl rfl
